import Mathlib

/-!
# Dmf_SelfTarget.c : the SelfTarget Module

A shallow embedding of `src/Dmf/Modules.Library/Dmf_SelfTarget.c`.

* Handles and pointers (`WDFIOTARGET`, `DMFMODULE`, `WDFDEVICE`, `VOID*`) are natural
  numbers, `NULL` being `0`.
* `NTSTATUS` is a signed integer; `NT_SUCCESS` is the usual `Status >= 0`.
* The Module's private context `DMF_CONTEXT_SelfTarget` is passed explicitly: every
  callback and Method takes the context found by `DMF_CONTEXT_GET(DmfModule)` and
  returns the context as it is when the function returns.
* Functions of the framework that are called but not defined in the file
  (`WdfIoTargetCreate`, `WdfIoTargetOpen`, `DMF_ContinuousRequestTarget_Send`, ...)
  are fields of the structure `Framework`: the code is studied for every behaviour of
  them. What they return is what the field returns on the arguments the code passes.
* Every call into the framework is also recorded, in program order, in the list of
  `Call`s that each function returns, so that "is called once", "is not called" and
  "is called with these arguments" are statements about that list.
* `ASSERT(e)` does not change control flow: a failing `ASSERT` is recorded as
  `Call.ASSERT_fails line` and execution goes on, as in a free build.
* Tracing (`FuncEntry`, `FuncExit`, `TraceEvents`) and `PAGED_CODE()` are left out.
-/

namespace SelfTarget

/-! ## Data model -/

abbrev NTSTATUS := Int
abbrev WDFIOTARGET := Nat
abbrev DMFMODULE := Nat
abbrev WDFDEVICE := Nat
abbrev PVOID := Nat
abbrev ULONG := Nat
abbrev size_t := Nat

/-- The null handle / null pointer. -/
def NULL : Nat := 0

/-- The status `STATUS_SUCCESS` (0x00000000). -/
def STATUS_SUCCESS : NTSTATUS := 0

/-- The status `STATUS_UNSUCCESSFUL` (0xC0000001 as a signed 32-bit value). -/
def STATUS_UNSUCCESSFUL : NTSTATUS := -1073741823

/-- The status `STATUS_INSUFFICIENT_RESOURCES` (0xC000009A as a signed 32-bit value). -/
def STATUS_INSUFFICIENT_RESOURCES : NTSTATUS := -1073741670

/-- The status `STATUS_IO_TIMEOUT` (0xC00000B5 as a signed 32-bit value). -/
def STATUS_IO_TIMEOUT : NTSTATUS := -1073741643

/-- The status `STATUS_CANCELLED` (0xC0000120 as a signed 32-bit value). -/
def STATUS_CANCELLED : NTSTATUS := -1073741536

/-- The macro `NT_SUCCESS(Status)`, that is `((NTSTATUS)(Status)) >= 0`. -/
def NT_SUCCESS (Status : NTSTATUS) : Bool := decide (0 ≤ Status)

/-- The share access flag `FILE_SHARE_READ`. -/
def FILE_SHARE_READ : ULONG := 1

/-- The share access flag `FILE_SHARE_WRITE`. -/
def FILE_SHARE_WRITE : ULONG := 2

/-- The Module's private context (lines 40-48). -/
structure DMF_CONTEXT_SelfTarget where
  /-- Underlying target. -/
  IoTarget : WDFIOTARGET
  /-- The child Module that sends the requests. -/
  DmfModuleContinuousRequestTarget : DMFMODULE
deriving DecidableEq, Repr

/-- The part of `WDF_OBJECT_ATTRIBUTES` that the code sets after `WDF_OBJECT_ATTRIBUTES_INIT`. -/
structure WDF_OBJECT_ATTRIBUTES where
  ParentObject : Nat
deriving DecidableEq, Repr

/-- The part of `WDF_IO_TARGET_OPEN_PARAMS` that the code sets:
`WDF_IO_TARGET_OPEN_PARAMS_INIT_EXISTING_DEVICE` stores the device object, then the code
stores `ShareAccess`. -/
structure WDF_IO_TARGET_OPEN_PARAMS where
  TargetDeviceObject : PVOID
  ShareAccess : ULONG
deriving DecidableEq, Repr

/-- The enumeration `ContinuousRequestTarget_RequestType` of the child Module. -/
inductive ContinuousRequestTarget_RequestType where
  | Invalid
  | Ioctl
  | Read
  | Write
deriving DecidableEq, Repr

/-- The arguments that `DMF_SelfTarget_Send` receives after `DmfModule` (lines 334-342). -/
structure SendArguments where
  RequestBuffer : PVOID
  RequestLength : size_t
  ResponseBuffer : PVOID
  ResponseLength : size_t
  RequestType : ContinuousRequestTarget_RequestType
  RequestIoctl : ULONG
  RequestTimeoutMilliseconds : ULONG
  EvtContinuousRequestTargetSingleAsynchronousRequest : PVOID
  SingleAsynchronousRequestClientContext : PVOID
deriving DecidableEq, Repr

/-- The arguments that `DMF_SelfTarget_SendSynchronously` receives after `DmfModule`
(lines 402-409); `BytesWritten` is the address of the caller's output variable. -/
structure SendSynchronouslyArguments where
  RequestBuffer : PVOID
  RequestLength : size_t
  ResponseBuffer : PVOID
  ResponseLength : size_t
  RequestType : ContinuousRequestTarget_RequestType
  RequestIoctl : ULONG
  RequestTimeoutMilliseconds : ULONG
  BytesWritten : PVOID
deriving DecidableEq, Repr

/-- One call out of the file, with the arguments passed, or one failing `ASSERT`
(with its source line). -/
inductive Call where
  | WdfIoTargetCreate (device : WDFDEVICE) (objectAttributes : WDF_OBJECT_ATTRIBUTES)
  | WdfIoTargetOpen (IoTarget : WDFIOTARGET) (openParams : WDF_IO_TARGET_OPEN_PARAMS)
  | DMF_ContinuousRequestTarget_IoTargetSet (DmfModule : DMFMODULE) (IoTarget : WDFIOTARGET)
  | WdfIoTargetClose (IoTarget : WDFIOTARGET)
  | WdfObjectDelete (IoTarget : WDFIOTARGET)
  | DMF_ModuleCreate (Device : WDFDEVICE) (DmfModuleAttributes : PVOID) (ObjectAttributes : PVOID)
  | DMF_ContinuousRequestTarget_Create (Device : WDFDEVICE) (attributes : WDF_OBJECT_ATTRIBUTES)
  | DMF_Module_Destroy (dmfModule : DMFMODULE)
  | DMF_HandleValidate_ModuleMethod (DmfModule : DMFMODULE)
  | DMF_ContinuousRequestTarget_Send (DmfModule : DMFMODULE) (arguments : SendArguments)
  | DMF_ContinuousRequestTarget_SendSynchronously (DmfModule : DMFMODULE)
      (arguments : SendSynchronouslyArguments)
  | ASSERT_fails (line : Nat)
deriving DecidableEq, Repr

/-- The functions called by the file and defined elsewhere. A function with an output
parameter returns the status together with the value found in the output location after
the call. -/
structure Framework where
  DMF_AttachedDeviceGet : DMFMODULE → WDFDEVICE
  WdfDeviceWdmGetDeviceObject : WDFDEVICE → PVOID
  WdfIoTargetCreate : WDFDEVICE → WDF_OBJECT_ATTRIBUTES → NTSTATUS × WDFIOTARGET
  WdfIoTargetOpen : WDFIOTARGET → WDF_IO_TARGET_OPEN_PARAMS → NTSTATUS
  DMF_ModuleCreate : WDFDEVICE → PVOID → PVOID → NTSTATUS × DMFMODULE
  DMF_ContinuousRequestTarget_Create : WDFDEVICE → WDF_OBJECT_ATTRIBUTES → NTSTATUS × DMFMODULE
  DMF_ContinuousRequestTarget_Send : DMFMODULE → SendArguments → NTSTATUS
  DMF_ContinuousRequestTarget_SendSynchronously :
    DMFMODULE → SendSynchronouslyArguments → NTSTATUS × size_t

/-- The macro `ASSERT(e)`: nothing when `e` holds, a recorded failure otherwise. -/
def ASSERT (line : Nat) (e : Bool) : List Call :=
  if e then [] else [Call.ASSERT_fails line]

/-! ## DMF Module callbacks -/

/-- What `DMF_SelfTarget_Open` returns and leaves behind. -/
structure OpenResult where
  ntStatus : NTSTATUS
  moduleContext : DMF_CONTEXT_SelfTarget
  calls : List Call
deriving DecidableEq, Repr

/-- The callback `DMF_SelfTarget_Open` (lines 79-147). -/
def DMF_SelfTarget_Open (fw : Framework) (DmfModule : DMFMODULE)
    (moduleContext : DMF_CONTEXT_SelfTarget) : OpenResult :=
  let device := fw.DMF_AttachedDeviceGet DmfModule
  let objectAttributes : WDF_OBJECT_ATTRIBUTES := ⟨DmfModule⟩
  -- ntStatus = WdfIoTargetCreate(device, &objectAttributes, &moduleContext->IoTarget);
  let created := fw.WdfIoTargetCreate device objectAttributes
  let ntStatus := created.1
  let moduleContext : DMF_CONTEXT_SelfTarget :=
    ⟨created.2, moduleContext.DmfModuleContinuousRequestTarget⟩
  let calls := [Call.WdfIoTargetCreate device objectAttributes]
  if ! NT_SUCCESS ntStatus then
    -- goto Exit;
    ⟨ntStatus, moduleContext, calls⟩
  else
    let openParams : WDF_IO_TARGET_OPEN_PARAMS :=
      ⟨fw.WdfDeviceWdmGetDeviceObject device, FILE_SHARE_WRITE ||| FILE_SHARE_READ⟩
    -- ntStatus = WdfIoTargetOpen(moduleContext->IoTarget, &openParams);
    let ntStatus := fw.WdfIoTargetOpen moduleContext.IoTarget openParams
    let calls := calls ++ [Call.WdfIoTargetOpen moduleContext.IoTarget openParams]
    if ! NT_SUCCESS ntStatus then
      -- ASSERT(NT_SUCCESS(ntStatus)); goto Exit;
      ⟨ntStatus, moduleContext, calls ++ ASSERT 134 (NT_SUCCESS ntStatus)⟩
    else
      ⟨ntStatus, moduleContext,
        calls ++ [Call.DMF_ContinuousRequestTarget_IoTargetSet
          moduleContext.DmfModuleContinuousRequestTarget moduleContext.IoTarget]⟩

/-- What `DMF_SelfTarget_Close` leaves behind (the callback returns `VOID`). -/
structure CloseResult where
  moduleContext : DMF_CONTEXT_SelfTarget
  calls : List Call
deriving DecidableEq, Repr

/-- The callback `DMF_SelfTarget_Close` (lines 154-189). -/
def DMF_SelfTarget_Close (moduleContext : DMF_CONTEXT_SelfTarget) : CloseResult :=
  if moduleContext.IoTarget != NULL then
    ⟨⟨NULL, moduleContext.DmfModuleContinuousRequestTarget⟩,
      [Call.WdfIoTargetClose moduleContext.IoTarget,
       Call.WdfObjectDelete moduleContext.IoTarget]⟩
  else
    ⟨moduleContext, []⟩

/-! ## Public calls by the Client -/

/-- Modelled from the spec: the context that `DMF_ModuleCreate` (not in the file) allocates
for a new instance. The spec's data model says the target handle is null/absent before open,
and that construction creates the Request Engine and no target yet; the framework hands out
zero-filled context memory, so both fields start as `NULL`. -/
def freshContext : DMF_CONTEXT_SelfTarget := ⟨NULL, NULL⟩

/-- What `DMF_SelfTarget_Create` returns and leaves behind: the status, the handle stored in
`*DmfModule`, and the context of the instance when one exists at return. -/
structure CreateResult where
  ntStatus : NTSTATUS
  DmfModule : DMFMODULE
  moduleContext : Option DMF_CONTEXT_SelfTarget
  calls : List Call
deriving DecidableEq, Repr

/-- The function `DMF_SelfTarget_Create` (lines 209-299). The static descriptor and callback
table it fills in (lines 245-255) are constants and are not passed to the framework fields. -/
def DMF_SelfTarget_Create (fw : Framework) (Device : WDFDEVICE) (DmfModuleAttributes : PVOID)
    (ObjectAttributes : PVOID) : CreateResult :=
  -- ntStatus = DMF_ModuleCreate(Device, DmfModuleAttributes, ObjectAttributes, &descriptor, &dmfModule);
  let made := fw.DMF_ModuleCreate Device DmfModuleAttributes ObjectAttributes
  let ntStatus := made.1
  let dmfModule := made.2
  let calls := [Call.DMF_ModuleCreate Device DmfModuleAttributes ObjectAttributes]
  if ! NT_SUCCESS ntStatus then
    -- goto Exit;
    ⟨ntStatus, dmfModule, none, calls⟩
  else
    let moduleContext := freshContext
    let attributes : WDF_OBJECT_ATTRIBUTES := ⟨dmfModule⟩
    -- ntStatus = DMF_ContinuousRequestTarget_Create(Device, &moduleAttributes, &attributes,
    --                                               &moduleContext->DmfModuleContinuousRequestTarget);
    let child := fw.DMF_ContinuousRequestTarget_Create Device attributes
    let ntStatus := child.1
    let moduleContext : DMF_CONTEXT_SelfTarget := ⟨moduleContext.IoTarget, child.2⟩
    let calls := calls ++ [Call.DMF_ContinuousRequestTarget_Create Device attributes]
    if ! NT_SUCCESS ntStatus then
      -- DMF_Module_Destroy(dmfModule); dmfModule = NULL; goto Exit;
      ⟨ntStatus, NULL, none, calls ++ [Call.DMF_Module_Destroy dmfModule]⟩
    else
      ⟨ntStatus, dmfModule, some moduleContext, calls⟩

/-- What `DMF_SelfTarget_Get` returns: the status and the value stored in `*IoTarget`. -/
structure GetResult where
  ntStatus : NTSTATUS
  IoTarget : WDFIOTARGET
  calls : List Call
deriving DecidableEq, Repr

/-- The Method `DMF_SelfTarget_Get` (lines 308-327). The output parameter is the field
`IoTarget` of the result, so `ASSERT(IoTarget != NULL)` on the output address holds. -/
def DMF_SelfTarget_Get (DmfModule : DMFMODULE) (moduleContext : DMF_CONTEXT_SelfTarget) :
    GetResult :=
  ⟨STATUS_SUCCESS, moduleContext.IoTarget,
    [Call.DMF_HandleValidate_ModuleMethod DmfModule]
      ++ ASSERT 323 (moduleContext.IoTarget != NULL)⟩

/-- What `DMF_SelfTarget_Send` returns. -/
structure SendResult where
  ntStatus : NTSTATUS
  calls : List Call
deriving DecidableEq, Repr

/-- The Method `DMF_SelfTarget_Send` (lines 332-396). -/
def DMF_SelfTarget_Send (fw : Framework) (DmfModule : DMFMODULE)
    (moduleContext : DMF_CONTEXT_SelfTarget) (a : SendArguments) : SendResult :=
  let ntStatus := fw.DMF_ContinuousRequestTarget_Send
    moduleContext.DmfModuleContinuousRequestTarget
    ⟨a.RequestBuffer, a.RequestLength, a.ResponseBuffer, a.ResponseLength, a.RequestType,
      a.RequestIoctl, a.RequestTimeoutMilliseconds,
      a.EvtContinuousRequestTargetSingleAsynchronousRequest,
      a.SingleAsynchronousRequestClientContext⟩
  ⟨ntStatus,
    [Call.DMF_HandleValidate_ModuleMethod DmfModule]
      ++ ASSERT 380 (moduleContext.IoTarget != NULL)
      ++ [Call.DMF_ContinuousRequestTarget_Send moduleContext.DmfModuleContinuousRequestTarget
            ⟨a.RequestBuffer, a.RequestLength, a.ResponseBuffer, a.ResponseLength, a.RequestType,
              a.RequestIoctl, a.RequestTimeoutMilliseconds,
              a.EvtContinuousRequestTargetSingleAsynchronousRequest,
              a.SingleAsynchronousRequestClientContext⟩]⟩

/-- What `DMF_SelfTarget_SendSynchronously` returns: the status and the value found in
`*BytesWritten` after the call. -/
structure SendSynchronouslyResult where
  ntStatus : NTSTATUS
  BytesWritten : size_t
  calls : List Call
deriving DecidableEq, Repr

/-- The Method `DMF_SelfTarget_SendSynchronously` (lines 400-461). -/
def DMF_SelfTarget_SendSynchronously (fw : Framework) (DmfModule : DMFMODULE)
    (moduleContext : DMF_CONTEXT_SelfTarget) (a : SendSynchronouslyArguments) :
    SendSynchronouslyResult :=
  let sent := fw.DMF_ContinuousRequestTarget_SendSynchronously
    moduleContext.DmfModuleContinuousRequestTarget
    ⟨a.RequestBuffer, a.RequestLength, a.ResponseBuffer, a.ResponseLength, a.RequestType,
      a.RequestIoctl, a.RequestTimeoutMilliseconds, a.BytesWritten⟩
  ⟨sent.1, sent.2,
    [Call.DMF_HandleValidate_ModuleMethod DmfModule]
      ++ ASSERT 446 (moduleContext.IoTarget != NULL)
      ++ [Call.DMF_ContinuousRequestTarget_SendSynchronously
            moduleContext.DmfModuleContinuousRequestTarget
            ⟨a.RequestBuffer, a.RequestLength, a.ResponseBuffer, a.ResponseLength, a.RequestType,
              a.RequestIoctl, a.RequestTimeoutMilliseconds, a.BytesWritten⟩]⟩

/-! ## The lifecycle driven by the framework -/

/-- One lifecycle operation on an instance: `Open`, with the behaviour of the framework during
that call, or `Close`. -/
inductive LifecycleOp where
  | Open (fw : Framework)
  | Close

/-- An instance during its lifecycle: its context, and whether the most recent lifecycle
operation was an `Open` that returned success (the "opened" state of the design). -/
structure Instance where
  moduleContext : DMF_CONTEXT_SelfTarget
  opened : Bool
deriving DecidableEq, Repr

/-- Run one lifecycle operation. -/
def lifecycleStep (DmfModule : DMFMODULE) (i : Instance) : LifecycleOp → Instance
  | LifecycleOp.Open fw =>
    ⟨(DMF_SelfTarget_Open fw DmfModule i.moduleContext).moduleContext,
      NT_SUCCESS (DMF_SelfTarget_Open fw DmfModule i.moduleContext).ntStatus⟩
  | LifecycleOp.Close => ⟨(DMF_SelfTarget_Close i.moduleContext).moduleContext, false⟩

/-- Run a sequence of lifecycle operations, first to last. -/
def lifecycle (DmfModule : DMFMODULE) (i : Instance) (ops : List LifecycleOp) : Instance :=
  ops.foldl (lifecycleStep DmfModule) i

/-- The calls to `DMF_ContinuousRequestTarget_IoTargetSet` in a list of calls, in order, each
with its two arguments. -/
def bindCalls : List Call → List (DMFMODULE × WDFIOTARGET)
  | [] => []
  | Call.DMF_ContinuousRequestTarget_IoTargetSet m t :: cs => (m, t) :: bindCalls cs
  | _ :: cs => bindCalls cs

/-- Whether a call is an operation on an I/O target object. -/
def isTargetOperation : Call → Bool
  | Call.WdfIoTargetCreate _ _ => true
  | Call.WdfIoTargetOpen _ _ => true
  | Call.WdfIoTargetClose _ => true
  | Call.WdfObjectDelete _ => true
  | _ => false

/-! ## Concrete behaviours of the framework -/

/-- A framework in which every step succeeds: the target created has handle 7, the instance
created has handle 2 and its child Module handle 5; a synchronous send transfers 64 bytes. -/
def fwSucceeds : Framework :=
  ⟨fun _ => 1, fun _ => 100, fun _ _ => (STATUS_SUCCESS, 7), fun _ _ => STATUS_SUCCESS,
    fun _ _ _ => (STATUS_SUCCESS, 2), fun _ _ => (STATUS_SUCCESS, 5),
    fun _ _ => STATUS_SUCCESS, fun _ _ => (STATUS_SUCCESS, 64)⟩

/-- A framework in which the target is created (handle 7) and `WdfIoTargetOpen` fails. -/
def fwOpenFails : Framework :=
  ⟨fun _ => 1, fun _ => 100, fun _ _ => (STATUS_SUCCESS, 7), fun _ _ => STATUS_UNSUCCESSFUL,
    fun _ _ _ => (STATUS_SUCCESS, 2), fun _ _ => (STATUS_SUCCESS, 5),
    fun _ _ => STATUS_SUCCESS, fun _ _ => (STATUS_SUCCESS, 64)⟩

/-- A framework in which `WdfIoTargetCreate` fails and leaves `NULL` in the output location. -/
def fwCreateFails : Framework :=
  ⟨fun _ => 1, fun _ => 100, fun _ _ => (STATUS_INSUFFICIENT_RESOURCES, NULL),
    fun _ _ => STATUS_SUCCESS, fun _ _ _ => (STATUS_SUCCESS, 2), fun _ _ => (STATUS_SUCCESS, 5),
    fun _ _ => STATUS_SUCCESS, fun _ _ => (STATUS_SUCCESS, 64)⟩

/-- A framework in which `DMF_ContinuousRequestTarget_Create` fails, and in which a send
times out. -/
def fwChildFails : Framework :=
  ⟨fun _ => 1, fun _ => 100, fun _ _ => (STATUS_SUCCESS, 7), fun _ _ => STATUS_SUCCESS,
    fun _ _ _ => (STATUS_SUCCESS, 2), fun _ _ => (STATUS_INSUFFICIENT_RESOURCES, 0),
    fun _ _ => STATUS_IO_TIMEOUT, fun _ _ => (STATUS_IO_TIMEOUT, 0)⟩

/-- A write request of 64 bytes with no response buffer and a timeout of 5000 ms. -/
def writeRequest : SendArguments :=
  ⟨4096, 64, 0, 0, ContinuousRequestTarget_RequestType.Write, 0, 5000, 8192, 12288⟩

/-- The same request, sent synchronously. -/
def writeRequestSynchronous : SendSynchronouslyArguments :=
  ⟨4096, 64, 0, 0, ContinuousRequestTarget_RequestType.Write, 0, 5000, 16384⟩

/-! ## Lemmas -/

/-- After `Close` the target handle is `NULL`. -/
theorem close_IoTarget (c : DMF_CONTEXT_SelfTarget) :
    (DMF_SelfTarget_Close c).moduleContext.IoTarget = NULL := by
  unfold DMF_SelfTarget_Close
  by_cases h : c.IoTarget = NULL <;> simp [h]

/-- The callback `Close` does not change the child Module handle. -/
theorem close_engine (c : DMF_CONTEXT_SelfTarget) :
    (DMF_SelfTarget_Close c).moduleContext.DmfModuleContinuousRequestTarget
      = c.DmfModuleContinuousRequestTarget := by
  unfold DMF_SelfTarget_Close
  by_cases h : c.IoTarget = NULL <;> simp [h]

/-- The callback `Open` does not change the child Module handle. -/
theorem open_engine (fw : Framework) (m : DMFMODULE) (c : DMF_CONTEXT_SelfTarget) :
    (DMF_SelfTarget_Open fw m c).moduleContext.DmfModuleContinuousRequestTarget
      = c.DmfModuleContinuousRequestTarget := by
  unfold DMF_SelfTarget_Open
  simp only
  split
  · rfl
  · split <;> rfl

/-- After `Open` the target handle is the value that `WdfIoTargetCreate` left in it. -/
theorem open_IoTarget (fw : Framework) (m : DMFMODULE) (c : DMF_CONTEXT_SelfTarget) :
    (DMF_SelfTarget_Open fw m c).moduleContext.IoTarget
      = (fw.WdfIoTargetCreate (fw.DMF_AttachedDeviceGet m) ⟨m⟩).2 := by
  unfold DMF_SelfTarget_Open
  simp only
  split
  · rfl
  · split <;> rfl

/-- One lifecycle operation does not change the child Module handle. -/
theorem lifecycleStep_engine (m : DMFMODULE) (i : Instance) (op : LifecycleOp) :
    (lifecycleStep m i op).moduleContext.DmfModuleContinuousRequestTarget
      = i.moduleContext.DmfModuleContinuousRequestTarget := by
  cases op with
  | Open fw => exact open_engine fw m i.moduleContext
  | Close => exact close_engine i.moduleContext

/-- No sequence of lifecycle operations changes the child Module handle. -/
theorem lifecycle_engine (m : DMFMODULE) (ops : List LifecycleOp) :
    ∀ i : Instance, (lifecycle m i ops).moduleContext.DmfModuleContinuousRequestTarget
      = i.moduleContext.DmfModuleContinuousRequestTarget := by
  induction ops with
  | nil => intro i; rfl
  | cons op rest ih =>
    intro i
    show (lifecycle m (lifecycleStep m i op) rest).moduleContext.DmfModuleContinuousRequestTarget
      = i.moduleContext.DmfModuleContinuousRequestTarget
    rw [ih, lifecycleStep_engine]

/-! ## Open: failure paths -/

/-- C1 (the code at the failing input): the target is created with handle 7 and
`WdfIoTargetOpen` fails with `STATUS_UNSUCCESSFUL`. `DMF_SelfTarget_Open` returns the failing
status, but it makes no `WdfObjectDelete` call (its only calls are the create, the open and the
failing `ASSERT` of line 134), and the context still holds the handle 7 of the target that was
never opened, not `NULL`. -/
theorem open_failure_leaves_created_target :
    (DMF_SelfTarget_Open fwOpenFails 2 ⟨NULL, 5⟩).ntStatus = STATUS_UNSUCCESSFUL ∧
    (DMF_SelfTarget_Open fwOpenFails 2 ⟨NULL, 5⟩).calls
      = [Call.WdfIoTargetCreate 1 ⟨2⟩, Call.WdfIoTargetOpen 7 ⟨100, 3⟩, Call.ASSERT_fails 134] ∧
    Call.WdfObjectDelete 7 ∉ (DMF_SelfTarget_Open fwOpenFails 2 ⟨NULL, 5⟩).calls ∧
    (DMF_SelfTarget_Open fwOpenFails 2 ⟨NULL, 5⟩).moduleContext.IoTarget = 7 ∧
    (DMF_SelfTarget_Open fwOpenFails 2 ⟨NULL, 5⟩).moduleContext.IoTarget ≠ NULL := by
  decide

/-! ## Open, Close, Get -/

/-- C2 (counterexample): after a successful `Open` followed by `Close`, `DMF_SelfTarget_Get`
does return success: its status is `STATUS_SUCCESS`, so it is not the case that it fails. -/
theorem closed_instance_get_succeeds :
    NT_SUCCESS (DMF_SelfTarget_Open fwSucceeds 2 ⟨NULL, 5⟩).ntStatus = true ∧
    ¬ (NT_SUCCESS (DMF_SelfTarget_Get 2
        (DMF_SelfTarget_Close
          (DMF_SelfTarget_Open fwSucceeds 2 ⟨NULL, 5⟩).moduleContext).moduleContext).ntStatus
        = false) := by
  decide

/-- C2 (amended): in every state reached by a successful `Open` followed by `Close`, the target
handle is `NULL` after `Close`; a following `DMF_SelfTarget_Get` violates its
`ASSERT(moduleContext->IoTarget != NULL)` (line 323), and then returns `STATUS_SUCCESS` and
outputs the `NULL` handle. -/
theorem get_after_close (fw : Framework) (DmfModule : DMFMODULE)
    (moduleContext : DMF_CONTEXT_SelfTarget)
    (_hOpen : NT_SUCCESS (DMF_SelfTarget_Open fw DmfModule moduleContext).ntStatus = true) :
    (DMF_SelfTarget_Close
      (DMF_SelfTarget_Open fw DmfModule moduleContext).moduleContext).moduleContext.IoTarget
      = NULL ∧
    DMF_SelfTarget_Get DmfModule
      (DMF_SelfTarget_Close
        (DMF_SelfTarget_Open fw DmfModule moduleContext).moduleContext).moduleContext
      = ⟨STATUS_SUCCESS, NULL,
          [Call.DMF_HandleValidate_ModuleMethod DmfModule, Call.ASSERT_fails 323]⟩ := by
  refine ⟨close_IoTarget _, ?_⟩
  unfold DMF_SelfTarget_Get
  rw [close_IoTarget]
  rfl

/-- The theorem `get_after_close` at a framework in which `Open` succeeds. -/
theorem get_after_close_witness :
    NT_SUCCESS (DMF_SelfTarget_Open fwSucceeds 2 ⟨NULL, 5⟩).ntStatus = true ∧
    (DMF_SelfTarget_Close
      (DMF_SelfTarget_Open fwSucceeds 2 ⟨NULL, 5⟩).moduleContext).moduleContext.IoTarget
      = NULL ∧
    DMF_SelfTarget_Get 2
      (DMF_SelfTarget_Close
        (DMF_SelfTarget_Open fwSucceeds 2 ⟨NULL, 5⟩).moduleContext).moduleContext
      = ⟨STATUS_SUCCESS, NULL,
          [Call.DMF_HandleValidate_ModuleMethod 2, Call.ASSERT_fails 323]⟩ :=
  ⟨by decide, get_after_close fwSucceeds 2 ⟨NULL, 5⟩ (by decide)⟩

/-- C3: `DMF_SelfTarget_Close` is idempotent: closing a closed instance gives the same context
and makes no call; and on every context whose target handle is `NULL`, `Close` leaves the
whole context unchanged and makes no call at all (so no close and no delete of a target).
`Close` returns `VOID` and is a total function: it has no failure result. -/
theorem close_idempotent (moduleContext : DMF_CONTEXT_SelfTarget) :
    DMF_SelfTarget_Close (DMF_SelfTarget_Close moduleContext).moduleContext
      = ⟨(DMF_SelfTarget_Close moduleContext).moduleContext, []⟩ ∧
    (moduleContext.IoTarget = NULL →
      DMF_SelfTarget_Close moduleContext = ⟨moduleContext, []⟩) := by
  constructor
  · have h := close_IoTarget moduleContext
    generalize (DMF_SelfTarget_Close moduleContext).moduleContext = c at h
    unfold DMF_SelfTarget_Close
    simp [h]
  · intro h
    unfold DMF_SelfTarget_Close
    simp [h]

/-- The theorem `close_idempotent` at an opened context and at a context with a null target. -/
theorem close_idempotent_witness :
    (DMF_SelfTarget_Close (DMF_SelfTarget_Close ⟨7, 5⟩).moduleContext
      = ⟨(DMF_SelfTarget_Close ⟨7, 5⟩).moduleContext, []⟩) ∧
    (DMF_CONTEXT_SelfTarget.mk NULL 5).IoTarget = NULL ∧
    DMF_SelfTarget_Close ⟨NULL, 5⟩ = ⟨⟨NULL, 5⟩, []⟩ :=
  ⟨(close_idempotent ⟨7, 5⟩).1, rfl, (close_idempotent ⟨NULL, 5⟩).2 rfl⟩

/-- C4: when `DMF_SelfTarget_Open` returned success, and target creation yields a non-null
handle on success, the following `DMF_SelfTarget_Get` returns `STATUS_SUCCESS` without failing
an `ASSERT`, and the handle it outputs is non-null, is the handle that `WdfIoTargetCreate`
produced, and is the handle of the one `DMF_ContinuousRequestTarget_IoTargetSet` call that
`Open` made, on the instance's own child Module. -/
theorem get_after_open (fw : Framework) (DmfModule : DMFMODULE)
    (moduleContext : DMF_CONTEXT_SelfTarget)
    (hOpen : NT_SUCCESS (DMF_SelfTarget_Open fw DmfModule moduleContext).ntStatus = true)
    (hCreate : NT_SUCCESS
        (fw.WdfIoTargetCreate (fw.DMF_AttachedDeviceGet DmfModule) ⟨DmfModule⟩).1 = true →
      (fw.WdfIoTargetCreate (fw.DMF_AttachedDeviceGet DmfModule) ⟨DmfModule⟩).2 ≠ NULL) :
    (DMF_SelfTarget_Get DmfModule
      (DMF_SelfTarget_Open fw DmfModule moduleContext).moduleContext).ntStatus
      = STATUS_SUCCESS ∧
    (DMF_SelfTarget_Get DmfModule
      (DMF_SelfTarget_Open fw DmfModule moduleContext).moduleContext).calls
      = [Call.DMF_HandleValidate_ModuleMethod DmfModule] ∧
    (DMF_SelfTarget_Get DmfModule
      (DMF_SelfTarget_Open fw DmfModule moduleContext).moduleContext).IoTarget ≠ NULL ∧
    (DMF_SelfTarget_Get DmfModule
      (DMF_SelfTarget_Open fw DmfModule moduleContext).moduleContext).IoTarget
      = (fw.WdfIoTargetCreate (fw.DMF_AttachedDeviceGet DmfModule) ⟨DmfModule⟩).2 ∧
    bindCalls (DMF_SelfTarget_Open fw DmfModule moduleContext).calls
      = [(moduleContext.DmfModuleContinuousRequestTarget,
          (DMF_SelfTarget_Get DmfModule
            (DMF_SelfTarget_Open fw DmfModule moduleContext).moduleContext).IoTarget)] := by
  have hT := open_IoTarget fw DmfModule moduleContext
  have hC : NT_SUCCESS
      (fw.WdfIoTargetCreate (fw.DMF_AttachedDeviceGet DmfModule) ⟨DmfModule⟩).1 = true := by
    by_contra hc
    simp only [Bool.not_eq_true] at hc
    unfold DMF_SelfTarget_Open at hOpen
    simp [hc] at hOpen
  have hN := hCreate hC
  have hO : NT_SUCCESS (fw.WdfIoTargetOpen
      (fw.WdfIoTargetCreate (fw.DMF_AttachedDeviceGet DmfModule) ⟨DmfModule⟩).2
      ⟨fw.WdfDeviceWdmGetDeviceObject (fw.DMF_AttachedDeviceGet DmfModule),
        FILE_SHARE_WRITE ||| FILE_SHARE_READ⟩) = true := by
    by_contra hc
    simp only [Bool.not_eq_true] at hc
    unfold DMF_SelfTarget_Open at hOpen
    simp [hC, hc] at hOpen
  refine ⟨rfl, ?_, ?_, ?_, ?_⟩
  · unfold DMF_SelfTarget_Get ASSERT
    simp [hT, hN]
  · show (DMF_SelfTarget_Open fw DmfModule moduleContext).moduleContext.IoTarget ≠ NULL
    rw [hT]; exact hN
  · exact hT
  · show _ = [(_, (DMF_SelfTarget_Open fw DmfModule moduleContext).moduleContext.IoTarget)]
    rw [hT]
    unfold DMF_SelfTarget_Open
    simp [hC, hO, bindCalls]

/-- The theorem `get_after_open` at a framework in which `Open` succeeds with target handle 7. -/
theorem get_after_open_witness :
    NT_SUCCESS (DMF_SelfTarget_Open fwSucceeds 2 ⟨NULL, 5⟩).ntStatus = true ∧
    (DMF_SelfTarget_Get 2 (DMF_SelfTarget_Open fwSucceeds 2 ⟨NULL, 5⟩).moduleContext).ntStatus
      = STATUS_SUCCESS ∧
    (DMF_SelfTarget_Get 2 (DMF_SelfTarget_Open fwSucceeds 2 ⟨NULL, 5⟩).moduleContext).calls
      = [Call.DMF_HandleValidate_ModuleMethod 2] ∧
    (DMF_SelfTarget_Get 2 (DMF_SelfTarget_Open fwSucceeds 2 ⟨NULL, 5⟩).moduleContext).IoTarget
      ≠ NULL ∧
    (DMF_SelfTarget_Get 2 (DMF_SelfTarget_Open fwSucceeds 2 ⟨NULL, 5⟩).moduleContext).IoTarget
      = 7 ∧
    bindCalls (DMF_SelfTarget_Open fwSucceeds 2 ⟨NULL, 5⟩).calls
      = [(5, (DMF_SelfTarget_Get 2
            (DMF_SelfTarget_Open fwSucceeds 2 ⟨NULL, 5⟩).moduleContext).IoTarget)] :=
  ⟨by decide, get_after_open fwSucceeds 2 ⟨NULL, 5⟩ (by decide) (by decide)⟩

/-! ## Send and SendSynchronously -/

/-- C5 (counterexample): on a context whose target handle is `NULL`, `DMF_SelfTarget_Send`
still calls `DMF_ContinuousRequestTarget_Send`, and returns the success status that this
call returned: it does not fail. -/
theorem null_target_send_reaches_engine :
    (DMF_CONTEXT_SelfTarget.mk NULL 5).IoTarget = NULL ∧
    Call.DMF_ContinuousRequestTarget_Send 5 writeRequest
      ∈ (DMF_SelfTarget_Send fwSucceeds 2 ⟨NULL, 5⟩ writeRequest).calls ∧
    NT_SUCCESS (DMF_SelfTarget_Send fwSucceeds 2 ⟨NULL, 5⟩ writeRequest).ntStatus = true := by
  decide

/-- C5 (amended): for every request, when `DMF_SelfTarget_Send` is called on a context whose
target handle is `NULL`, its `ASSERT(moduleContext->IoTarget != NULL)` (line 380) fails, and
it then calls `DMF_ContinuousRequestTarget_Send` once, on the instance's child Module, with
the arguments unchanged, and returns the status of that call. -/
theorem send_unopened (fw : Framework) (DmfModule : DMFMODULE)
    (moduleContext : DMF_CONTEXT_SelfTarget) (a : SendArguments)
    (hNull : moduleContext.IoTarget = NULL) :
    (DMF_SelfTarget_Send fw DmfModule moduleContext a).calls
      = [Call.DMF_HandleValidate_ModuleMethod DmfModule, Call.ASSERT_fails 380,
         Call.DMF_ContinuousRequestTarget_Send
           moduleContext.DmfModuleContinuousRequestTarget a] ∧
    (DMF_SelfTarget_Send fw DmfModule moduleContext a).ntStatus
      = fw.DMF_ContinuousRequestTarget_Send moduleContext.DmfModuleContinuousRequestTarget a := by
  unfold DMF_SelfTarget_Send ASSERT
  simp [hNull]

/-- The theorem `send_unopened` at a context with a null target and a send that times out. -/
theorem send_unopened_witness :
    (DMF_CONTEXT_SelfTarget.mk NULL 5).IoTarget = NULL ∧
    (DMF_SelfTarget_Send fwChildFails 2 ⟨NULL, 5⟩ writeRequest).calls
      = [Call.DMF_HandleValidate_ModuleMethod 2, Call.ASSERT_fails 380,
         Call.DMF_ContinuousRequestTarget_Send 5 writeRequest] ∧
    (DMF_SelfTarget_Send fwChildFails 2 ⟨NULL, 5⟩ writeRequest).ntStatus
      = STATUS_IO_TIMEOUT :=
  ⟨rfl, send_unopened fwChildFails 2 ⟨NULL, 5⟩ writeRequest rfl⟩

/-- C6: on every opened instance (target handle not `NULL`) and for every request,
`DMF_SelfTarget_Send` makes exactly one call of `DMF_ContinuousRequestTarget_Send`, and
`DMF_SelfTarget_SendSynchronously` exactly one call of
`DMF_ContinuousRequestTarget_SendSynchronously`, on the instance's own child Module and with
every argument unchanged (the only other call is the handle validation); each returns exactly
the status of that call, whatever it is, and the synchronous one yields exactly the number of
bytes written that the call produced. -/
theorem send_delegates (fw : Framework) (DmfModule : DMFMODULE)
    (moduleContext : DMF_CONTEXT_SelfTarget) (a : SendArguments)
    (b : SendSynchronouslyArguments) (hOpened : moduleContext.IoTarget ≠ NULL) :
    (DMF_SelfTarget_Send fw DmfModule moduleContext a).calls
      = [Call.DMF_HandleValidate_ModuleMethod DmfModule,
         Call.DMF_ContinuousRequestTarget_Send
           moduleContext.DmfModuleContinuousRequestTarget a] ∧
    (DMF_SelfTarget_Send fw DmfModule moduleContext a).ntStatus
      = fw.DMF_ContinuousRequestTarget_Send moduleContext.DmfModuleContinuousRequestTarget a ∧
    (DMF_SelfTarget_SendSynchronously fw DmfModule moduleContext b).calls
      = [Call.DMF_HandleValidate_ModuleMethod DmfModule,
         Call.DMF_ContinuousRequestTarget_SendSynchronously
           moduleContext.DmfModuleContinuousRequestTarget b] ∧
    (DMF_SelfTarget_SendSynchronously fw DmfModule moduleContext b).ntStatus
      = (fw.DMF_ContinuousRequestTarget_SendSynchronously
          moduleContext.DmfModuleContinuousRequestTarget b).1 ∧
    (DMF_SelfTarget_SendSynchronously fw DmfModule moduleContext b).BytesWritten
      = (fw.DMF_ContinuousRequestTarget_SendSynchronously
          moduleContext.DmfModuleContinuousRequestTarget b).2 := by
  unfold DMF_SelfTarget_Send DMF_SelfTarget_SendSynchronously ASSERT
  simp [hOpened]

/-- The theorem `send_delegates` at an opened context and a framework whose sends time out. -/
theorem send_delegates_witness :
    (DMF_CONTEXT_SelfTarget.mk 7 5).IoTarget ≠ NULL ∧
    (DMF_SelfTarget_Send fwChildFails 2 ⟨7, 5⟩ writeRequest).calls
      = [Call.DMF_HandleValidate_ModuleMethod 2,
         Call.DMF_ContinuousRequestTarget_Send 5 writeRequest] ∧
    (DMF_SelfTarget_Send fwChildFails 2 ⟨7, 5⟩ writeRequest).ntStatus = STATUS_IO_TIMEOUT ∧
    (DMF_SelfTarget_SendSynchronously fwChildFails 2 ⟨7, 5⟩ writeRequestSynchronous).calls
      = [Call.DMF_HandleValidate_ModuleMethod 2,
         Call.DMF_ContinuousRequestTarget_SendSynchronously 5 writeRequestSynchronous] ∧
    (DMF_SelfTarget_SendSynchronously fwChildFails 2 ⟨7, 5⟩ writeRequestSynchronous).ntStatus
      = STATUS_IO_TIMEOUT ∧
    (DMF_SelfTarget_SendSynchronously fwChildFails 2 ⟨7, 5⟩ writeRequestSynchronous).BytesWritten
      = 0 :=
  ⟨by decide, send_delegates fwChildFails 2 ⟨7, 5⟩ writeRequest writeRequestSynchronous
    (by decide)⟩

/-! ## Create -/

/-- C7: `DMF_SelfTarget_Create` builds the instance and its child Module and opens no target.
When it returns success, the instance exists, its child Module handle is the one that
`DMF_ContinuousRequestTarget_Create` produced, its target handle is `NULL`, and the calls made
are one `DMF_ModuleCreate` and one `DMF_ContinuousRequestTarget_Create`, so no operation on a
target. When the instance is created and `DMF_ContinuousRequestTarget_Create` fails, `Create`
returns that status, destroys the instance it had created and outputs a `NULL` handle, each
creation step having been called once. -/
theorem create_contract (fw : Framework) (Device : WDFDEVICE) (DmfModuleAttributes : PVOID)
    (ObjectAttributes : PVOID) :
    (NT_SUCCESS (DMF_SelfTarget_Create fw Device DmfModuleAttributes ObjectAttributes).ntStatus
        = true →
      (DMF_SelfTarget_Create fw Device DmfModuleAttributes ObjectAttributes).DmfModule
        = (fw.DMF_ModuleCreate Device DmfModuleAttributes ObjectAttributes).2 ∧
      (DMF_SelfTarget_Create fw Device DmfModuleAttributes ObjectAttributes).moduleContext
        = some ⟨NULL, (fw.DMF_ContinuousRequestTarget_Create Device
            ⟨(fw.DMF_ModuleCreate Device DmfModuleAttributes ObjectAttributes).2⟩).2⟩ ∧
      (DMF_SelfTarget_Create fw Device DmfModuleAttributes ObjectAttributes).calls
        = [Call.DMF_ModuleCreate Device DmfModuleAttributes ObjectAttributes,
           Call.DMF_ContinuousRequestTarget_Create Device
            ⟨(fw.DMF_ModuleCreate Device DmfModuleAttributes ObjectAttributes).2⟩] ∧
      (∀ c ∈ (DMF_SelfTarget_Create fw Device DmfModuleAttributes ObjectAttributes).calls,
        isTargetOperation c = false)) ∧
    (NT_SUCCESS (fw.DMF_ModuleCreate Device DmfModuleAttributes ObjectAttributes).1 = true →
      NT_SUCCESS (fw.DMF_ContinuousRequestTarget_Create Device
          ⟨(fw.DMF_ModuleCreate Device DmfModuleAttributes ObjectAttributes).2⟩).1 = false →
      (DMF_SelfTarget_Create fw Device DmfModuleAttributes ObjectAttributes).ntStatus
        = (fw.DMF_ContinuousRequestTarget_Create Device
            ⟨(fw.DMF_ModuleCreate Device DmfModuleAttributes ObjectAttributes).2⟩).1 ∧
      (DMF_SelfTarget_Create fw Device DmfModuleAttributes ObjectAttributes).DmfModule = NULL ∧
      (DMF_SelfTarget_Create fw Device DmfModuleAttributes ObjectAttributes).moduleContext
        = none ∧
      (DMF_SelfTarget_Create fw Device DmfModuleAttributes ObjectAttributes).calls
        = [Call.DMF_ModuleCreate Device DmfModuleAttributes ObjectAttributes,
           Call.DMF_ContinuousRequestTarget_Create Device
            ⟨(fw.DMF_ModuleCreate Device DmfModuleAttributes ObjectAttributes).2⟩,
           Call.DMF_Module_Destroy
            (fw.DMF_ModuleCreate Device DmfModuleAttributes ObjectAttributes).2]) := by
  constructor
  · intro hS
    by_cases h1 : NT_SUCCESS (fw.DMF_ModuleCreate Device DmfModuleAttributes ObjectAttributes).1
        = true
    · by_cases h2 : NT_SUCCESS (fw.DMF_ContinuousRequestTarget_Create Device
          ⟨(fw.DMF_ModuleCreate Device DmfModuleAttributes ObjectAttributes).2⟩).1 = true
      · unfold DMF_SelfTarget_Create
        simp [h1, h2, freshContext, isTargetOperation]
      · simp only [Bool.not_eq_true] at h2
        unfold DMF_SelfTarget_Create at hS
        simp [h1, h2] at hS
    · simp only [Bool.not_eq_true] at h1
      unfold DMF_SelfTarget_Create at hS
      simp [h1] at hS
  · intro h1 h2
    unfold DMF_SelfTarget_Create
    simp [h1, h2]

/-- The theorem `create_contract` at a framework in which creation succeeds and at one in which the child Module cannot be created. -/
theorem create_contract_witness :
    (NT_SUCCESS (DMF_SelfTarget_Create fwSucceeds 1 0 0).ntStatus = true ∧
      (DMF_SelfTarget_Create fwSucceeds 1 0 0).DmfModule = 2 ∧
      (DMF_SelfTarget_Create fwSucceeds 1 0 0).moduleContext = some ⟨NULL, 5⟩ ∧
      (DMF_SelfTarget_Create fwSucceeds 1 0 0).calls
        = [Call.DMF_ModuleCreate 1 0 0, Call.DMF_ContinuousRequestTarget_Create 1 ⟨2⟩] ∧
      (∀ c ∈ (DMF_SelfTarget_Create fwSucceeds 1 0 0).calls, isTargetOperation c = false)) ∧
    (NT_SUCCESS (fwChildFails.DMF_ModuleCreate 1 0 0).1 = true ∧
      NT_SUCCESS (fwChildFails.DMF_ContinuousRequestTarget_Create 1 ⟨2⟩).1 = false ∧
      (DMF_SelfTarget_Create fwChildFails 1 0 0).ntStatus = STATUS_INSUFFICIENT_RESOURCES ∧
      (DMF_SelfTarget_Create fwChildFails 1 0 0).DmfModule = NULL ∧
      (DMF_SelfTarget_Create fwChildFails 1 0 0).moduleContext = none ∧
      (DMF_SelfTarget_Create fwChildFails 1 0 0).calls
        = [Call.DMF_ModuleCreate 1 0 0, Call.DMF_ContinuousRequestTarget_Create 1 ⟨2⟩,
           Call.DMF_Module_Destroy 2]) :=
  ⟨⟨by decide, (create_contract fwSucceeds 1 0 0).1 (by decide)⟩,
    ⟨by decide, by decide, (create_contract fwChildFails 1 0 0).2 (by decide) (by decide)⟩⟩

/-! ## Lifecycle -/

/-- C8 (the code at the failing input): starting from a freshly created instance, one `Open`
in which the target is created (handle 7) and `WdfIoTargetOpen` fails. `Open` did not return
success, so the instance is not in the opened state, yet its target handle is 7, not `NULL`. -/
theorem failed_open_breaks_opened_invariant :
    (lifecycle 2 ⟨freshContext, false⟩ [LifecycleOp.Open fwOpenFails]).opened = false ∧
    (lifecycle 2 ⟨freshContext, false⟩ [LifecycleOp.Open fwOpenFails]).moduleContext.IoTarget
      = 7 ∧
    ¬ ((lifecycle 2 ⟨freshContext, false⟩
          [LifecycleOp.Open fwOpenFails]).moduleContext.IoTarget ≠ NULL ↔
        (lifecycle 2 ⟨freshContext, false⟩ [LifecycleOp.Open fwOpenFails]).opened = true) := by
  decide

/-- C9: `DMF_SelfTarget_Open` returns success exactly when `WdfIoTargetCreate` and
`WdfIoTargetOpen` (on the handle created) both return success; when creation fails it returns
the status of creation, and when creation succeeds and opening fails it returns the status of
opening. When `Open` succeeds it calls `DMF_ContinuousRequestTarget_IoTargetSet` exactly once,
on the instance's child Module and with the handle just created; when `Open` fails it does not
call it. -/
theorem open_status_and_bind (fw : Framework) (DmfModule : DMFMODULE)
    (moduleContext : DMF_CONTEXT_SelfTarget) :
    (NT_SUCCESS (DMF_SelfTarget_Open fw DmfModule moduleContext).ntStatus = true ↔
      NT_SUCCESS (fw.WdfIoTargetCreate (fw.DMF_AttachedDeviceGet DmfModule) ⟨DmfModule⟩).1
          = true ∧
        NT_SUCCESS (fw.WdfIoTargetOpen
          (fw.WdfIoTargetCreate (fw.DMF_AttachedDeviceGet DmfModule) ⟨DmfModule⟩).2
          ⟨fw.WdfDeviceWdmGetDeviceObject (fw.DMF_AttachedDeviceGet DmfModule),
            FILE_SHARE_WRITE ||| FILE_SHARE_READ⟩) = true) ∧
    (NT_SUCCESS (fw.WdfIoTargetCreate (fw.DMF_AttachedDeviceGet DmfModule) ⟨DmfModule⟩).1
        = false →
      (DMF_SelfTarget_Open fw DmfModule moduleContext).ntStatus
        = (fw.WdfIoTargetCreate (fw.DMF_AttachedDeviceGet DmfModule) ⟨DmfModule⟩).1) ∧
    (NT_SUCCESS (fw.WdfIoTargetCreate (fw.DMF_AttachedDeviceGet DmfModule) ⟨DmfModule⟩).1
        = true →
      (DMF_SelfTarget_Open fw DmfModule moduleContext).ntStatus
        = fw.WdfIoTargetOpen
          (fw.WdfIoTargetCreate (fw.DMF_AttachedDeviceGet DmfModule) ⟨DmfModule⟩).2
          ⟨fw.WdfDeviceWdmGetDeviceObject (fw.DMF_AttachedDeviceGet DmfModule),
            FILE_SHARE_WRITE ||| FILE_SHARE_READ⟩) ∧
    bindCalls (DMF_SelfTarget_Open fw DmfModule moduleContext).calls
      = (if NT_SUCCESS (DMF_SelfTarget_Open fw DmfModule moduleContext).ntStatus then
          [(moduleContext.DmfModuleContinuousRequestTarget,
            (fw.WdfIoTargetCreate (fw.DMF_AttachedDeviceGet DmfModule) ⟨DmfModule⟩).2)]
        else []) := by
  by_cases h1 : NT_SUCCESS
      (fw.WdfIoTargetCreate (fw.DMF_AttachedDeviceGet DmfModule) ⟨DmfModule⟩).1 = true
  · by_cases h2 : NT_SUCCESS (fw.WdfIoTargetOpen
          (fw.WdfIoTargetCreate (fw.DMF_AttachedDeviceGet DmfModule) ⟨DmfModule⟩).2
          ⟨fw.WdfDeviceWdmGetDeviceObject (fw.DMF_AttachedDeviceGet DmfModule),
            FILE_SHARE_WRITE ||| FILE_SHARE_READ⟩) = true
    · unfold DMF_SelfTarget_Open
      simp [h1, h2, bindCalls]
    · simp only [Bool.not_eq_true] at h2
      unfold DMF_SelfTarget_Open
      simp [h1, h2, bindCalls, ASSERT]
  · simp only [Bool.not_eq_true] at h1
    unfold DMF_SelfTarget_Open
    simp [h1, bindCalls]

/-- The theorem `open_status_and_bind` at a framework in which opening the target fails and at one in which `Open` succeeds. -/
theorem open_status_and_bind_witness :
    NT_SUCCESS (fwOpenFails.WdfIoTargetCreate (fwOpenFails.DMF_AttachedDeviceGet 2) ⟨2⟩).1
      = true ∧
    (DMF_SelfTarget_Open fwOpenFails 2 ⟨NULL, 5⟩).ntStatus = STATUS_UNSUCCESSFUL ∧
    bindCalls (DMF_SelfTarget_Open fwOpenFails 2 ⟨NULL, 5⟩).calls = [] ∧
    bindCalls (DMF_SelfTarget_Open fwSucceeds 2 ⟨NULL, 5⟩).calls = [(5, 7)] ∧
    NT_SUCCESS (fwCreateFails.WdfIoTargetCreate (fwCreateFails.DMF_AttachedDeviceGet 2) ⟨2⟩).1
      = false ∧
    (DMF_SelfTarget_Open fwCreateFails 2 ⟨NULL, 5⟩).ntStatus = STATUS_INSUFFICIENT_RESOURCES :=
  ⟨by decide, (open_status_and_bind fwOpenFails 2 ⟨NULL, 5⟩).2.2.1 (by decide),
    (open_status_and_bind fwOpenFails 2 ⟨NULL, 5⟩).2.2.2,
    (open_status_and_bind fwSucceeds 2 ⟨NULL, 5⟩).2.2.2,
    by decide, (open_status_and_bind fwCreateFails 2 ⟨NULL, 5⟩).2.1 (by decide)⟩

/-- C10: on every context with a non-null target handle `h`, `DMF_SelfTarget_Close` makes exactly
two calls, `WdfIoTargetClose h` and then `WdfObjectDelete h`, sets the target handle to `NULL`
and leaves the child Module handle unchanged; and over any sequence of `Open` and `Close`
operations the child Module handle stays the one the instance started with. -/
theorem close_releases_target (moduleContext : DMF_CONTEXT_SelfTarget)
    (hOpened : moduleContext.IoTarget ≠ NULL) :
    DMF_SelfTarget_Close moduleContext
      = ⟨⟨NULL, moduleContext.DmfModuleContinuousRequestTarget⟩,
          [Call.WdfIoTargetClose moduleContext.IoTarget,
           Call.WdfObjectDelete moduleContext.IoTarget]⟩ ∧
    (∀ (DmfModule : DMFMODULE) (opened : Bool) (ops : List LifecycleOp),
      (lifecycle DmfModule ⟨moduleContext, opened⟩
          ops).moduleContext.DmfModuleContinuousRequestTarget
        = moduleContext.DmfModuleContinuousRequestTarget) := by
  constructor
  · unfold DMF_SelfTarget_Close
    simp [hOpened]
  · intro m o ops
    exact lifecycle_engine m ops ⟨moduleContext, o⟩

/-- The theorem `close_releases_target` at the context with target handle 7 and child Module handle 5. -/
theorem close_releases_target_witness :
    (DMF_CONTEXT_SelfTarget.mk 7 5).IoTarget ≠ NULL ∧
    DMF_SelfTarget_Close ⟨7, 5⟩
      = ⟨⟨NULL, 5⟩, [Call.WdfIoTargetClose 7, Call.WdfObjectDelete 7]⟩ ∧
    (lifecycle 2 ⟨⟨7, 5⟩, true⟩
      [LifecycleOp.Close, LifecycleOp.Open fwSucceeds, LifecycleOp.Close,
       LifecycleOp.Open fwOpenFails]).moduleContext.DmfModuleContinuousRequestTarget = 5 :=
  ⟨by decide, (close_releases_target ⟨7, 5⟩ (by decide)).1,
    (close_releases_target ⟨7, 5⟩ (by decide)).2 2 true _⟩

end SelfTarget
